import Mathlib

/-!
Verification model of the raspi_control repository (pi.py, pi2.py,
pi_final.py): command decoding and dispatch, background-task bookkeeping,
the TCP file-transfer session, the datagram file receiver and content
sniffing.  Byte sequences are `List Nat` (entries < 256 at use sites),
decoded text is `String`, and Python float values are modelled as exact
rationals, which is adequate for the sign/zero tests the code performs.
Operations that can raise a Python exception are modelled so that an
exception caught by a `try`/`except` in the source becomes an error
response value, while an exception raised outside any `try` block makes
the surrounding handler return `none`.
-/

/-- Python whitespace test on the ASCII range (`str.split` / `str.strip`). -/
def isSpaceChar (c : Char) : Bool := c.toNat = 32 || (9 ≤ c.toNat && c.toNat ≤ 13)

/-- Whitespace test on code points. -/
def isSpaceCp (n : Nat) : Bool := n = 32 || (9 ≤ n && n ≤ 13)

/-- `str.strip()` on a list of code points. -/
def pystripCp (l : List Nat) : List Nat :=
  ((l.dropWhile isSpaceCp).reverse.dropWhile isSpaceCp).reverse

def pysplitChars : List Char → List Char → List (List Char)
  | [], acc => if acc.isEmpty then [] else [acc.reverse]
  | c :: rest, acc =>
    if isSpaceChar c then
      if acc.isEmpty then pysplitChars rest [] else acc.reverse :: pysplitChars rest []
    else pysplitChars rest (c :: acc)

/-- `str.split()` (no arguments): split on whitespace runs, no empty tokens. -/
def pysplit (s : String) : List String := (pysplitChars s.toList []).map (fun l => String.mk l)

/-- `str.split(maxsplit=n)`: after `n` splits, the remainder (leading
whitespace removed) is kept as one final token. -/
def pysplitMaxChars (maxs : Nat) (l : List Char) : List (List Char) :=
  let l1 := l.dropWhile isSpaceChar
  if l1.isEmpty then []
  else if h : maxs = 0 then [l1]
  else (l1.takeWhile (fun c => !isSpaceChar c)) ::
       pysplitMaxChars (maxs - 1) (l1.dropWhile (fun c => !isSpaceChar c))
termination_by maxs
decreasing_by omega

def pysplitMax (maxs : Nat) (s : String) : List String :=
  (pysplitMaxChars maxs s.toList).map (fun l => String.mk l)

/-- `s.split(sep, 1)` for a one-character separator: split at the first
occurrence only (used by pi2.py's `payload.split(':', 1)`). -/
def splitOnce (sep : Char) (s : String) : List String :=
  let l := s.toList
  if l.contains sep then
    [String.mk (l.takeWhile (fun c => c ≠ sep)),
     String.mk ((l.dropWhile (fun c => c ≠ sep)).drop 1)]
  else [s]

/-- A UTF-8 continuation byte. -/
def contB (c : Nat) : Bool := 128 ≤ c && c ≤ 191

/-- Permitted first continuation byte of a three-byte sequence (rules out
overlong encodings after 0xE0 and surrogates after 0xED). -/
def cont3First (b c : Nat) : Bool :=
  if b = 224 then 160 ≤ c && c ≤ 191
  else if b = 237 then 128 ≤ c && c ≤ 159
  else contB c

/-- Permitted first continuation byte of a four-byte sequence (rules out
overlong encodings after 0xF0 and values above U+10FFFF after 0xF4). -/
def cont4First (b c : Nat) : Bool :=
  if b = 240 then 144 ≤ c && c ≤ 191
  else if b = 244 then 128 ≤ c && c ≤ 143
  else contB c

/-- Strict UTF-8 decoding (`bytes.decode()`): `none` models a raised
`UnicodeDecodeError`. -/
def utf8Decode : List Nat → Option (List Nat)
  | [] => some []
  | b :: rest =>
    if b < 128 then (utf8Decode rest).map (fun l => b :: l)
    else if 194 ≤ b && b ≤ 223 then
      match rest with
      | c1 :: r =>
        if contB c1 then (utf8Decode r).map (fun l => ((b - 192) * 64 + (c1 - 128)) :: l)
        else none
      | [] => none
    else if 224 ≤ b && b ≤ 239 then
      match rest with
      | c1 :: c2 :: r =>
        if cont3First b c1 && contB c2 then
          (utf8Decode r).map (fun l => ((b - 224) * 4096 + (c1 - 128) * 64 + (c2 - 128)) :: l)
        else none
      | _ => none
    else if 240 ≤ b && b ≤ 244 then
      match rest with
      | c1 :: c2 :: c3 :: r =>
        if cont4First b c1 && contB c2 && contB c3 then
          (utf8Decode r).map
            (fun l => ((b - 240) * 262144 + (c1 - 128) * 4096 + (c2 - 128) * 64 + (c3 - 128)) :: l)
        else none
      | _ => none
    else none

/-- Lenient UTF-8 decoding (`bytes.decode('utf-8', errors='ignore')`):
an invalid maximal subpart is skipped instead of raising.  Structured
with a byte-count fuel so that it is structurally recursive (each call
consumes at least one byte, so `l.length` fuel never runs out). -/
def utf8DecodeIgnoreAux : Nat → List Nat → List Nat
  | 0, _ => []
  | _ + 1, [] => []
  | fuel + 1, b :: rest =>
    if b < 128 then b :: utf8DecodeIgnoreAux fuel rest
    else if 194 ≤ b && b ≤ 223 then
      match rest with
      | c1 :: r =>
        if contB c1 then ((b - 192) * 64 + (c1 - 128)) :: utf8DecodeIgnoreAux fuel r
        else utf8DecodeIgnoreAux fuel (c1 :: r)
      | [] => []
    else if 224 ≤ b && b ≤ 239 then
      match rest with
      | c1 :: c2 :: r =>
        if cont3First b c1 then
          if contB c2 then
            ((b - 224) * 4096 + (c1 - 128) * 64 + (c2 - 128)) :: utf8DecodeIgnoreAux fuel r
          else utf8DecodeIgnoreAux fuel (c2 :: r)
        else utf8DecodeIgnoreAux fuel (c1 :: c2 :: r)
      | [c1] => if cont3First b c1 then [] else utf8DecodeIgnoreAux fuel [c1]
      | [] => []
    else if 240 ≤ b && b ≤ 244 then
      match rest with
      | c1 :: c2 :: c3 :: r =>
        if cont4First b c1 then
          if contB c2 then
            if contB c3 then
              ((b - 240) * 262144 + (c1 - 128) * 4096 + (c2 - 128) * 64 + (c3 - 128)) ::
                utf8DecodeIgnoreAux fuel r
            else utf8DecodeIgnoreAux fuel (c3 :: r)
          else utf8DecodeIgnoreAux fuel (c2 :: c3 :: r)
        else utf8DecodeIgnoreAux fuel (c1 :: c2 :: c3 :: r)
      | [c1, c2] =>
        if cont4First b c1 then (if contB c2 then [] else utf8DecodeIgnoreAux fuel [c2])
        else utf8DecodeIgnoreAux fuel [c1, c2]
      | [c1] => if cont4First b c1 then [] else utf8DecodeIgnoreAux fuel [c1]
      | [] => []
    else utf8DecodeIgnoreAux fuel rest

def utf8DecodeIgnore (l : List Nat) : List Nat := utf8DecodeIgnoreAux l.length l

/-- Turn decoded code points into a `String`. -/
def cpsToString (l : List Nat) : String := String.mk (l.map Char.ofNat)

/-- ASCII bytes of a string (for building test datagrams). -/
def strBytes (s : String) : List Nat := s.toList.map Char.toNat

def isDigitC (c : Char) : Bool := 48 ≤ c.toNat && c.toNat ≤ 57

def digitsToNat (l : List Char) : Nat := l.foldl (fun a c => a * 10 + (c.toNat - 48)) 0

/-- Model of Python `float(str)` on plain decimal literals (optional sign,
digits, optional fraction), as an exact rational.  Exponent forms and the
`inf`/`nan` spellings are not modelled; for the literals the protocol
exercises, IEEE rounding does not change the sign/zero tests the code
performs on the result. -/
def parseFloat (s : String) : Option ℚ :=
  let l := ((s.toList.dropWhile isSpaceChar).reverse.dropWhile isSpaceChar).reverse
  let sl : Bool × List Char :=
    match l with
    | '+' :: r => (false, r)
    | '-' :: r => (true, r)
    | _ => (false, l)
  let ip := sl.2.takeWhile isDigitC
  let rest := sl.2.drop ip.length
  let mk : Nat → Nat → Option ℚ := fun mant k =>
    some (mkRat (if sl.1 then -(mant : Int) else (mant : Int)) (10 ^ k))
  match rest with
  | [] => if ip.isEmpty then none else mk (digitsToNat ip) 0
  | '.' :: fr =>
    if fr.all isDigitC && !(ip.isEmpty && fr.isEmpty) then
      mk (digitsToNat ip * 10 ^ fr.length + digitsToNat fr) fr.length
    else none
  | _ => none

/-- Model of Python float formatting (f-string `{x}`) for the decimally
exact values that arise here: integral values print as `n.0`. -/
def formatFloat (q : ℚ) : String :=
  if q.den = 1 then toString q.num ++ ".0" else toString q.num ++ "/" ++ toString q.den

def hexDigit (n : Nat) : Char := if n < 10 then Char.ofNat (48 + n) else Char.ofNat (55 + n)

/-- `f"{n:04X}"` for `n < 65536`. -/
def toHex4 (n : Nat) : String :=
  String.mk [hexDigit (n / 4096 % 16), hexDigit (n / 256 % 16), hexDigit (n / 16 % 16),
             hexDigit (n % 16)]

/-- `struct.unpack('>I', ...)` on exactly four bytes. -/
def be32 : List Nat → Nat
  | [a, b, c, d] => ((a * 256 + b) * 256 + c) * 256 + d
  | _ => 0

/-- `sub in s` for a single character (reducible model of `String.contains`). -/
def strHasChar (s : String) (c : Char) : Bool := s.toList.contains c

/-- `s.startswith(pre)` (reducible model of `String.startsWith`). -/
def strStarts (s pre : String) : Bool := List.isPrefixOf pre.toList s.toList

/-- `s.endswith(suf)` (reducible model of `String.endsWith`). -/
def strEnds (s suf : String) : Bool := List.isSuffixOf suf.toList s.toList

def charLower (c : Char) : Char :=
  if 65 ≤ c.toNat && c.toNat ≤ 90 then Char.ofNat (c.toNat + 32) else c

/-- `str.lower()` on the ASCII range. -/
def pyLower (s : String) : String := String.mk (s.toList.map charLower)

def splitAllChar (sep : Char) : List Char → List Char → List String
  | [], acc => [String.mk acc.reverse]
  | c :: rest, acc =>
    if c = sep then String.mk acc.reverse :: splitAllChar sep rest []
    else splitAllChar sep rest (c :: acc)

/-- `s.split(sep)` for a one-character separator, empty parts kept. -/
def splitChar (sep : Char) (s : String) : List String := splitAllChar sep s.toList []

/-- POSIX `os.path.join` for two components. -/
def pathJoin (a b : String) : String :=
  if strStarts b "/" then b
  else if strEnds a "/" || a = "" then a ++ b
  else a ++ "/" ++ b

/-- Path components after resolving `.`, `..` and empty segments
(absolute paths; `..` at the root is dropped, as POSIX resolution does). -/
def normComponents (p : String) : List String :=
  (splitChar '/' p).foldl
    (fun acc seg =>
      if seg = "" || seg = "." then acc
      else if seg = ".." then acc.dropLast
      else acc ++ [seg]) []

/-- Whether the file named by `p` resides under directory `dir` once `..`
components are resolved. -/
def isUnder (dir p : String) : Bool := List.isPrefixOf (normComponents dir) (normComponents p)

/-- The host filesystem, as a map from path to contents. -/
abbrev FS := List (String × List Nat)

def fsRemove : FS → String → FS
  | [], _ => []
  | e :: rest, p => if e.1 = p then fsRemove rest p else e :: fsRemove rest p

/-- `open(p, 'wb').write(c)`: replace any entry for `p`. -/
def fsWrite (fs : FS) (p : String) (c : List Nat) : FS := (p, c) :: fsRemove fs p

def fsRead : FS → String → Option (List Nat)
  | [], _ => none
  | e :: rest, p => if e.1 = p then some e.2 else fsRead rest p

/-- `FILE_SAVE_PATH` from all three variants. -/
def FILE_SAVE_PATH : String := "/home/ppt5517/received_files/"

/-- `AUDIO_RECORD_PATH = os.path.join(FILE_SAVE_PATH, "audio_recordings")`. -/
def AUDIO_RECORD_PATH : String := pathJoin FILE_SAVE_PATH "audio_recordings"

def endsWithAny (s : String) (sufs : List String) : Bool := sufs.any (fun x => strEnds s x)

/-- Model of `datetime.strptime(t, "%Y-%m-%d %H:%M:%S")` succeeding:
shape check plus the basic field ranges (strptime-style leap seconds
allowed; per-month day counts are not modelled, they are not exercised). -/
def validTimeFormat (t : String) : Bool :=
  match t.toList with
  | [y1, y2, y3, y4, '-', m1, m2, '-', d1, d2, ' ', h1, h2, ':', n1, n2, ':', s1, s2] =>
    [y1, y2, y3, y4, m1, m2, d1, d2, h1, h2, n1, n2, s1, s2].all isDigitC &&
    (let mo := digitsToNat [m1, m2]
     let dy := digitsToNat [d1, d2]
     let hh := digitsToNat [h1, h2]
     let mi := digitsToNat [n1, n2]
     let ss := digitsToNat [s1, s2]
     decide (1 ≤ mo ∧ mo ≤ 12 ∧ 1 ≤ dy ∧ dy ≤ 31 ∧ hh ≤ 23 ∧ mi ≤ 59 ∧ ss ≤ 61))
  | _ => false

/-! ## pi.py: text-command UDP handler -/

/-- Mutable module state of pi.py that the claims observe.
`captureWorkers` counts live `continuous_capture_func` threads. -/
structure PiState where
  continuousCapture : Bool
  captureInterval : ℚ
  captureWorkers : Nat
  ledOn : Bool
deriving DecidableEq

/-- Environment of pi.py: capability-port outcomes and the current
timestamp; `str(e)` texts of hardware exceptions are carried as fields. -/
structure PiEnv where
  gpioAvailable : Bool
  cameraOk : Bool
  cameraErr : String
  fileExists : String → Bool
  serialAvail : String → Bool
  oledRet : Nat
  timestamp : String

/-- Body of pi.py `handle_udp_command` for one already-decoded, stripped
command string (the `try`-protected dispatch; response初值 "OK"). -/
def pi_udp_dispatch (command : String) (env : PiEnv) (s : PiState) : String × PiState :=
  if command = "capture" then
    if env.cameraOk then
      ("CAPTURED:" ++ FILE_SAVE_PATH ++ "capture_" ++ env.timestamp ++ ".jpg", s)
    else ("ERROR:处理命令时出错 - " ++ env.cameraErr, s)
  else if strStarts command "continuous_capture" then
    match pysplit command with
    | [_] => ("OK", { s with continuousCapture := true, captureWorkers := s.captureWorkers + 1 })
    | [_, p1] =>
      if p1 = "stop" then ("连续拍摄停止", { s with continuousCapture := false })
      else
        match parseFloat p1 with
        | some interval =>
          if interval > 0 then
            ("OK", { s with captureInterval := interval, continuousCapture := true,
                            captureWorkers := s.captureWorkers + 1 })
          else ("ERROR:间隔时间必须大于0", s)
        | none => ("ERROR:无效的间隔时间", s)
    | _ => ("ERROR:无效的连续拍摄命令", s)
  else if strStarts command "record" then
    ((match pysplit command with
      | [p0, p1] =>
        if p0 = "record" then
          match parseFloat p1 with
          | some duration =>
            if duration ≤ 0 then "ERROR:时长必须大于0"
            else if env.cameraOk then
              "RECORDING_COMPLETE:" ++ FILE_SAVE_PATH ++ "video_" ++ env.timestamp ++ ".mp4"
            else "RECORDING_ERROR:" ++ env.cameraErr
          | none => "ERROR:无效时长"
        else "ERROR:格式应为\x27record <时长>\x27"
      | _ => "ERROR:格式应为\x27record <时长>\x27"), s)
  else if command = "run_script oled" then
    ((if env.oledRet = 0 then "SUCCESS:脚本执行成功"
      else "ERROR:脚本执行失败，返回码" ++ toString env.oledRet), s)
  else if command = "led_on" then
    if env.gpioAvailable then ("OK", { s with ledOn := true }) else ("ERROR:GPIO不可用", s)
  else if command = "led_off" then
    if env.gpioAvailable then ("OK", { s with ledOn := false }) else ("ERROR:GPIO不可用", s)
  else if strStarts command "display" then
    ((match pysplit command with
      | [_, fp] =>
        if env.fileExists fp then
          if endsWithAny (pyLower fp) [".png", ".jpg", ".jpeg"] then "OK"
          else if endsWithAny (pyLower fp) [".mp4", ".avi", ".h264"] then "OK"
          else "ERROR:不支持的文件格式"
        else "ERROR:文件不存在"
      | _ => "ERROR:无效的显示命令"), s)
  else if strStarts command "serial" then
    ((match pysplitMax 3 command with
      | [_, port, _, d3] =>
        if env.serialAvail port then "SERIAL_SENT:" ++ port ++ ":" ++ d3
        else "ERROR:串口 " ++ port ++ " 不可用"
      | _ => "ERROR:无效的串口命令格式，应为 \x27serial [port] [data]\x27"), s)
  else if command = "audio_record_start" then
    ("AUDIO_RECORDING_STARTED:" ++ pathJoin AUDIO_RECORD_PATH "recording.wav", s)
  else if command = "audio_record_stop" then ("AUDIO_RECORDING_STOPPED", s)
  else if strStarts command "audio_play" then
    ((match pysplit command with
      | [_, af] => if env.fileExists af then "AUDIO_PLAYING:" ++ af else "ERROR:音频文件不存在"
      | _ => "ERROR:无效的播放命令格式"), s)
  else ("ERROR:未知命令", s)

/-- One iteration of pi.py `handle_udp_command` on a raw datagram.
`data.decode()` is executed before the `try` block, so a
`UnicodeDecodeError` escapes the handler: that is the `none` case. -/
def handle_udp_command_pi (data : List Nat) (env : PiEnv) (s : PiState) :
    Option (String × PiState) :=
  (utf8Decode data).map (fun cps => pi_udp_dispatch (cpsToString (pystripCp cps)) env s)

/-! ## pi2.py: binary-opcode UDP handler -/

/-- Module state of pi2.py observed by claims; `files` is the listing of
`FILE_SAVE_PATH` used by `storage_clear`. -/
structure Pi2State where
  continuousCapture : Bool
  captureInterval : ℚ
  captureWorkers : Nat
  ledOn : Bool
  files : List String
deriving DecidableEq

/-- Environment of pi2.py; `exnText` is the `str(e)` of a raised
exception caught by an enclosing `except`. -/
structure Pi2Env where
  gpioAvailable : Bool
  cameraOk : Bool
  fileExists : String → Bool
  serialAvail : String → Bool
  timeSetRet : Nat
  exnText : String
  timestamp : String

/-- The integer-keyed part of the `COMMANDS` table. -/
def COMMANDS_MAIN : List (Nat × String) :=
  [(0x0A5F, "display"), (0x14BD, "control"), (0x0011, "capture"),
   (0x0022, "storage_clear"), (0x2E9A, "data_return"), (0x42EB, "time_sync")]

def mapLookupNat : List (Nat × String) → Nat → Option String
  | [], _ => none
  | p :: rest, k => if k = p.1 then some p.2 else mapLookupNat rest k

/-- The nested sub-command dictionaries of the `COMMANDS` table. -/
def pi2SubTable (name : String) : Option (List (Nat × String)) :=
  if name = "display" then some [(1, "display_image"), (2, "play_video")]
  else if name = "control" then some [(1, "led_on"), (2, "led_off"), (3, "serial_send")]
  else if name = "capture" then
    some [(1, "single_capture"), (2, "start_continuous"), (3, "stop_continuous"),
          (4, "start_recording"), (5, "stop_recording")]
  else if name = "data_return" then some [(1, "send_file"), (2, "send_status")]
  else none

/-- The per-sub-command branches of pi2.py `handle_udp_command`.
Sub-commands that appear in the table but have no branch (`play_video`,
`start_recording`, `stop_recording`, `send_status`) leave the response at
its initial value `"ERROR:无效指令"`. -/
def pi2_sub_dispatch (subName : String) (payload : List Nat) (env : Pi2Env) (s : Pi2State) :
    String × Pi2State :=
  if subName = "led_on" then
    if env.gpioAvailable then ("LED_ON", { s with ledOn := true }) else ("ERROR:GPIO不可用", s)
  else if subName = "led_off" then
    if env.gpioAvailable then ("LED_OFF", { s with ledOn := false }) else ("ERROR:GPIO不可用", s)
  else if subName = "single_capture" then
    if env.cameraOk then
      ("CAPTURED:" ++ FILE_SAVE_PATH ++ "capture_" ++ env.timestamp ++ ".jpg", s)
    else ("ERROR:处理指令时出错 - " ++ env.exnText, s)
  else if subName = "start_continuous" then
    let iv : Option ℚ :=
      if payload.isEmpty then some 1
      else
        match utf8Decode payload with
        | none => none
        | some cps => parseFloat (cpsToString cps)
    match iv with
    | some interval =>
      if interval > 0 then
        ("CONTINUOUS_CAPTURE_STARTED:" ++ formatFloat interval ++ "s",
         { s with captureInterval := interval, continuousCapture := true,
                  captureWorkers := s.captureWorkers + 1 })
      else ("ERROR:间隔时间必须大于0", s)
    | none => ("ERROR:无效的间隔时间", s)
  else if subName = "stop_continuous" then
    ("CONTINUOUS_CAPTURE_STOPPED", { s with continuousCapture := false })
  else if subName = "display_image" then
    match utf8Decode payload with
    | none => ("ERROR:处理指令时出错 - " ++ env.exnText, s)
    | some cps =>
      let fp := cpsToString cps
      if env.fileExists fp then ("IMAGE_DISPLAY_STARTED", s) else ("ERROR:图片文件不存在", s)
  else if subName = "send_file" then
    match utf8Decode payload with
    | none => ("ERROR:处理指令时出错 - " ++ env.exnText, s)
    | some cps =>
      let fp := cpsToString cps
      if env.fileExists fp then ("FILE_SEND_STARTED:" ++ fp, s) else ("ERROR:文件不存在", s)
  else if subName = "serial_send" then
    match utf8Decode payload with
    | none => ("ERROR:处理指令时出错 - " ++ env.exnText, s)
    | some cps =>
      match splitOnce ':' (cpsToString cps) with
      | [port, d] =>
        if env.serialAvail port then ("SERIAL_SENT:" ++ port ++ ":" ++ d, s)
        else ("ERROR:串口 " ++ port ++ " 不可用", s)
      | _ => ("ERROR:串口命令格式应为\x27port:data\x27", s)
  else ("ERROR:无效指令", s)

/-- Body of pi2.py `handle_udp_command` for one datagram: two big-endian
16-bit fields then the payload.  Everything here is inside the `try`, so
the handler always produces a response. -/
def pi2_udp_dispatch (data : List Nat) (env : Pi2Env) (s : Pi2State) : String × Pi2State :=
  if 4 ≤ data.length then
    let command := 256 * data.getD 0 0 + data.getD 1 0
    let subCommand := 256 * data.getD 2 0 + data.getD 3 0
    let payload := data.drop 4
    match mapLookupNat COMMANDS_MAIN command with
    | none => ("ERROR:未知指令 0x" ++ toHex4 command, s)
    | some cmdName =>
      if cmdName = "time_sync" then
        match utf8Decode payload with
        | none => ("ERROR:时间格式无效 - " ++ env.exnText, s)
        | some cps =>
          let timeStr := cpsToString (pystripCp cps)
          if validTimeFormat timeStr then
            if env.timeSetRet = 0 then ("TIME_SET_SUCCESS:" ++ timeStr, s)
            else ("TIME_SET_FAILED:" ++ toString env.timeSetRet, s)
          else ("ERROR:时间格式无效 - " ++ env.exnText, s)
      else if cmdName = "storage_clear" then
        ("STORAGE_CLEARED",
         { s with files := s.files.filter (fun f =>
             !(strStarts f "capture_" || strStarts f "continuous_" ||
               strStarts f "video_" || strStarts f "recording")) })
      else
        match pi2SubTable cmdName with
        | none => ("ERROR:无效指令", s)
        | some tbl =>
          match mapLookupNat tbl subCommand with
          | none => ("ERROR:无效的子指令 0x" ++ toHex4 subCommand ++ " 对于 " ++ cmdName, s)
          | some subName => pi2_sub_dispatch subName payload env s
  else ("ERROR:指令长度不足", s)

/-- One iteration of pi2.py `handle_udp_command`: the whole body sits in
a `try`/`except`, so no datagram can escape the handler — the result is
always `some` response. -/
def handle_udp_command_pi2 (data : List Nat) (env : Pi2Env) (s : Pi2State) :
    Option (String × Pi2State) :=
  some (pi2_udp_dispatch data env s)

/-! ## pi_final.py: string-to-hex-code dispatch -/

/-- `COMMAND_MAPPING` of pi_final.py. -/
def COMMAND_MAPPING : List (String × String) :=
  [("capture", "0x14BD0001"),
   ("continuous_capture", "0x14BD0002"),
   ("continuous_capture stop", "0x14BD0003"),
   ("record", "0x14BD0004"),
   ("audio_record_start", "0x14BD0005"),
   ("audio_record_stop", "0x14BD0006"),
   ("audio_play", "0x14BD0007"),
   ("set_time", "0x42EB0001"),
   ("file_transfer", "0x20010001"),
   ("download", "0x20010002"),
   ("hdmi_play", "0x22A10001"),
   ("hdmi_stop", "0x22A10002"),
   ("tcp_send_file", "0x30C10001"),
   ("run_script oled", "0x30020001"),
   ("led_on", "0x40010001"),
   ("led_off", "0x40020001"),
   ("display", "0x50010001"),
   ("serial", "0x60010001")]

/-- Python `dict.get` on a string-keyed table. -/
def mapLookup : List (String × String) → String → Option String
  | [], _ => none
  | p :: rest, k => if k = p.1 then some p.2 else mapLookup rest k

/-- `get_command_code` of pi_final.py.  `full_command.split()[0]` raises
`IndexError` when the command contains a space but splits to nothing;
that unreachable-from-the-server fault is the `none` case. -/
def get_command_code (full_command : String) : Option String :=
  let firstTok := if strHasChar full_command ' ' then (pysplit full_command).head?
                  else some full_command
  match firstTok with
  | none => none
  | some b =>
    let base_cmd := if full_command = "continuous_capture stop" then full_command else b
    some ((mapLookup COMMAND_MAPPING base_cmd).getD "0x00000000")

/-- Mutable module state of pi_final.py that the claims observe:
task flags, worker/process counts, and the LED line. -/
structure PFState where
  continuousCapture : Bool
  captureInterval : ℚ
  captureWorkers : Nat
  isAudioRecording : Bool
  audioWorkers : Nat
  hdmiHandle : Bool
  hdmiProcs : Nat
  ledOn : Bool
deriving DecidableEq

/-- Environment of pi_final.py: capability-port outcomes, `str(e)` texts
of hardware failures, and the current timestamp. -/
structure PFEnv where
  gpioAvailable : Bool
  cameraOk : Bool
  cameraErr : String
  fileExists : String → Bool
  serialAvail : String → Bool
  audioOpenOk : Bool
  audioErr : String
  timeSetOk : Bool
  timeSetErr : String
  oledOk : Bool
  oledErr : String
  tcpOk : Bool
  tcpErr : String
  timestamp : String

/-- `capture_image` of pi_final.py. -/
def capture_image (env : PFEnv) : Bool × String :=
  if env.cameraOk then (true, pathJoin FILE_SAVE_PATH ("capture_" ++ env.timestamp ++ ".jpg"))
  else (false, env.cameraErr)

/-- `start_continuous_capture` of pi_final.py: refuses when the flag is
already set, otherwise records the interval, sets the flag and spawns one
capture-loop worker.  There is no positivity check on `interval`. -/
def start_continuous_capture (interval : ℚ) (s : PFState) : (Bool × String) × PFState :=
  if s.continuousCapture then ((false, "已经在连续拍摄模式"), s)
  else
    ((true, "开始连续拍摄，间隔 " ++ formatFloat interval ++ " 秒"),
     { s with captureInterval := interval, continuousCapture := true,
              captureWorkers := s.captureWorkers + 1 })

/-- `stop_continuous_capture` of pi_final.py: unconditionally clears the
flag and reports success. -/
def stop_continuous_capture (s : PFState) : (Bool × String) × PFState :=
  ((true, "已停止连续拍摄"), { s with continuousCapture := false })

/-- `record_video` of pi_final.py (fixed-duration recording). -/
def record_video (_duration : ℚ) (env : PFEnv) : Bool × String :=
  if env.cameraOk then (true, pathJoin FILE_SAVE_PATH ("video_" ++ env.timestamp ++ ".mp4"))
  else (false, env.cameraErr)

/-- `set_system_time` of pi_final.py. -/
def set_system_time (time_str : String) (env : PFEnv) : Bool × String :=
  if validTimeFormat time_str then
    if env.timeSetOk then (true, "系统时间已设置为 " ++ time_str) else (false, env.timeSetErr)
  else (false, "时间格式错误，应为 YYYY-MM-DD HH:MM:SS")

/-- `control_led` of pi_final.py. -/
def control_led (state : String) (env : PFEnv) (s : PFState) : (Bool × String) × PFState :=
  if !env.gpioAvailable then ((false, "GPIO不可用"), s)
  else if pyLower state = "on" then ((true, "LED已开启"), { s with ledOn := true })
  else if pyLower state = "off" then ((true, "LED已关闭"), { s with ledOn := false })
  else ((false, "无效的状态 (on/off)"), s)

/-- `display_file` of pi_final.py. -/
def display_file (filepath : String) (env : PFEnv) : Bool × String :=
  if !env.fileExists filepath then (false, "文件不存在")
  else if endsWithAny (pyLower filepath) [".png", ".jpg", ".jpeg"] then
    (true, "正在显示图片: " ++ filepath)
  else if endsWithAny (pyLower filepath) [".mp4", ".avi", ".h264"] then
    (true, "正在播放视频: " ++ filepath)
  else (false, "不支持的文件格式")

/-- `serial_send` of pi_final.py. -/
def serial_send (port d : String) (env : PFEnv) : Bool × String :=
  if !env.serialAvail port then (false, "串口 " ++ port ++ " 不可用")
  else (true, "已通过 " ++ port ++ " 发送: " ++ d)

/-- `start_audio_recording` of pi_final.py: refuses when already
recording, otherwise opens the stream and spawns one recording worker. -/
def start_audio_recording (env : PFEnv) (s : PFState) : (Bool × String) × PFState :=
  if s.isAudioRecording then ((false, "已经在录音中"), s)
  else if env.audioOpenOk then
    ((true, "录音已开始"), { s with isAudioRecording := true, audioWorkers := s.audioWorkers + 1 })
  else ((false, env.audioErr), s)

/-- `stop_audio_recording` of pi_final.py: fails when no recording is in
progress, otherwise clears the flag and saves the WAV file. -/
def stop_audio_recording (env : PFEnv) (s : PFState) : (Bool × String) × PFState :=
  if !s.isAudioRecording then ((false, "没有正在进行的录音"), s)
  else
    ((true, "录音已保存: " ++ pathJoin AUDIO_RECORD_PATH ("recording_" ++ env.timestamp ++ ".wav")),
     { s with isAudioRecording := false })

/-- `play_audio` of pi_final.py. -/
def play_audio (filepath : String) (env : PFEnv) : Bool × String :=
  if !env.fileExists filepath then (false, "文件不存在")
  else if !strEnds (pyLower filepath) ".wav" then (false, "仅支持WAV格式音频")
  else (true, "正在播放: " ++ filepath)

/-- `run_oled_script` of pi_final.py. -/
def run_oled_script (env : PFEnv) : Bool × String :=
  if env.oledOk then (true, "OLED脚本执行成功") else (false, env.oledErr)

/-- `hdmi_play_video` of pi_final.py: if a player handle exists the old
process is terminated, then a fresh player is spawned — success either
way.  `hdmiProcs` counts live player processes. -/
def hdmi_play_video (filepath : String) (env : PFEnv) (s : PFState) : (Bool × String) × PFState :=
  if !env.fileExists filepath then ((false, "文件不存在"), s)
  else
    let s1 := if s.hdmiHandle then { s with hdmiProcs := s.hdmiProcs - 1 } else s
    ((true, "正在HDMI播放: " ++ filepath),
     { s1 with hdmiProcs := s1.hdmiProcs + 1, hdmiHandle := true })

/-- `hdmi_stop_video` of pi_final.py. -/
def hdmi_stop_video (s : PFState) : (Bool × String) × PFState :=
  if s.hdmiHandle then
    ((true, "HDMI播放已停止"), { s with hdmiProcs := s.hdmiProcs - 1, hdmiHandle := false })
  else ((false, "没有正在播放的视频"), s)

/-- `tcp_send_file` of pi_final.py (outbound push). -/
def tcp_send_file (target_ip filepath : String) (env : PFEnv) : Bool × String :=
  if !env.fileExists filepath then (false, "文件不存在")
  else if env.tcpOk then (true, "文件已发送至 " ++ target_ip ++ ":8890")
  else (false, env.tcpErr)

/-- `COMMAND_MAPPING[k]` for the literal keys used in the dispatch chain. -/
def cm (k : String) : String := (mapLookup COMMAND_MAPPING k).getD ""

/-- The dispatch chain of `udp_command_server` in pi_final.py, given the
stripped command and its code.  Note that `file_transfer` and `download`
have no branch and fall through to `未知命令`. -/
def udp_command_server_dispatch (command cmd_code : String) (env : PFEnv) (s : PFState) :
    String × PFState :=
  let parts := pysplit command
  let hres : (Bool × String) × PFState :=
    if cmd_code = cm "capture" then (capture_image env, s)
    else if cmd_code = cm "continuous_capture" then
      match parts with
      | _ :: p1 :: _ =>
        (match parseFloat p1 with
         | some interval => start_continuous_capture interval s
         | none => ((false, "无效的间隔时间"), s))
      | _ => start_continuous_capture 1 s
    else if cmd_code = cm "continuous_capture stop" then stop_continuous_capture s
    else if cmd_code = cm "record" then
      ((match parts with
        | _ :: p1 :: _ =>
          (match parseFloat p1 with
           | some duration => record_video duration env
           | none => (false, "无效的录制时长"))
        | _ => (false, "需要指定录制时长")), s)
    else if cmd_code = cm "set_time" then
      ((match parts with
        | _ :: a :: rest => set_system_time (String.intercalate " " (a :: rest)) env
        | _ => (false, "需要指定时间")), s)
    else if cmd_code = cm "led_on" then control_led "on" env s
    else if cmd_code = cm "led_off" then control_led "off" env s
    else if cmd_code = cm "display" then
      ((match parts with
        | _ :: p1 :: _ => display_file p1 env
        | _ => (false, "需要指定文件路径")), s)
    else if cmd_code = cm "serial" then
      ((match parts with
        | _ :: p1 :: p2 :: rest => serial_send p1 (String.intercalate " " (p2 :: rest)) env
        | _ => (false, "需要指定串口和数据")), s)
    else if cmd_code = cm "audio_record_start" then start_audio_recording env s
    else if cmd_code = cm "audio_record_stop" then stop_audio_recording env s
    else if cmd_code = cm "audio_play" then
      ((match parts with
        | _ :: p1 :: _ => play_audio p1 env
        | _ => (false, "需要指定音频文件")), s)
    else if cmd_code = cm "run_script oled" then (run_oled_script env, s)
    else if cmd_code = cm "hdmi_play" then
      match parts with
      | _ :: p1 :: _ => hdmi_play_video p1 env s
      | _ => ((false, "需要指定视频文件"), s)
    else if cmd_code = cm "hdmi_stop" then hdmi_stop_video s
    else if cmd_code = cm "tcp_send_file" then
      ((match parts with
        | _ :: p1 :: p2 :: _ => tcp_send_file p1 p2 env
        | _ => (false, "需要指定目标IP和文件路径")), s)
    else ((false, "未知命令"), s)
  let status := if hres.1.1 then "SUCCESS" else "ERROR"
  (cmd_code ++ ":" ++ status ++ ":" ++ hres.1.2, hres.2)

/-- `udp_command_server` loop body from the stripped command onwards:
`get_command_code` runs before the `try`, so its (unreachable) fault
escapes as `none`. -/
def udp_command_server_handle (command : String) (env : PFEnv) (s : PFState) :
    Option (String × PFState) :=
  (get_command_code command).map (fun code => udp_command_server_dispatch command code env s)

/-- `udp_command_server` loop body on a raw datagram: `data.decode()` is
executed before the `try` block, so a non-UTF-8 datagram escapes. -/
def udp_command_server_step (data : List Nat) (env : PFEnv) (s : PFState) :
    Option (String × PFState) :=
  match utf8Decode data with
  | none => none
  | some cps => udp_command_server_handle (cpsToString (pystripCp cps)) env s

/-! ## pi_final.py: TCP file-transfer session -/

/-- The chunked receive loop of `handle_tcp_file_transfer`: while fewer
than `fileSize` bytes have arrived, `conn.recv(min(4096, file_size -
received))` returns the next at-most-that-many buffered bytes, or nothing
once the peer has closed; an empty chunk breaks the loop.  Returns the
final counter and the bytes written to the file. -/
def recvLoop (fileSize : Nat) (conn : List Nat) (received : Nat) (fdata : List Nat) :
    Nat × List Nat :=
  if _h : received < fileSize then
    match conn.take (min 4096 (fileSize - received)) with
    | [] => (received, fdata)
    | c :: cs =>
      recvLoop fileSize (conn.drop (c :: cs).length) (received + (c :: cs).length)
        (fdata ++ (c :: cs))
  else (received, fdata)
termination_by fileSize - received
decreasing_by simp only [List.length_cons]; omega

/-- `f"ERROR:{e}"` for the incomplete-transfer `ValueError` text. -/
def incompleteMsg (received fileSize : Nat) : String :=
  "ERROR:文件接收不完整 (" ++ toString received ++ "/" ++ toString fileSize ++ " 字节)"

/-- Observable outcome of one `handle_tcp_file_transfer` session:
the terminal message sent back, the byte counter, whether the stored
file was kept (removed on failure), and the bytes written. -/
structure TcpResult where
  response : String
  received : Nat
  kept : Bool
  contents : List Nat
deriving DecidableEq

/-- `handle_tcp_file_transfer` of pi_final.py on the connection's byte
stream: a six-byte header (two opcode bytes, four big-endian size bytes),
then the chunked receive loop; success acknowledgement exactly when the
counter reaches the declared size, otherwise the partial file is removed
and the incomplete-transfer error is sent. -/
def handle_tcp_file_transfer (conn : List Nat) : TcpResult :=
  let header := conn.take 6
  if header.length = 6 then
    let fileSize := be32 (header.drop 2)
    let body := conn.drop 6
    let r := recvLoop fileSize body 0 []
    if r.1 = fileSize then
      { response := "FILE_TRANSFER_SUCCESS", received := r.1, kept := true, contents := r.2 }
    else
      { response := incompleteMsg r.1 fileSize, received := r.1, kept := false, contents := r.2 }
  else { response := "ERROR:无效的文件头长度", received := 0, kept := false, contents := [] }

/-- `guess_file_type` of pi_final.py: reads the first FOUR bytes of the
stored file as `header`, compares them with the JPEG/PNG/MP4 signatures
and — for WAV — also compares `header[8:12]` with `b"WAVE"`, then renames
on a match; returns the (possibly new) path.  `none` contents model an
unreadable file (the `except` path returns the original path). -/
def guess_file_type (contents : Option (List Nat)) (filepath : String) (timestamp : String) :
    String :=
  match contents with
  | none => filepath
  | some bytes =>
    let header := bytes.take 4
    if List.isPrefixOf [255, 216, 255] header then
      pathJoin FILE_SAVE_PATH ("image_" ++ timestamp ++ ".jpg")
    else if List.isPrefixOf [137, 80, 78, 71] header then
      pathJoin FILE_SAVE_PATH ("image_" ++ timestamp ++ ".png")
    else if List.isPrefixOf [0, 0, 0, 32] header then
      pathJoin FILE_SAVE_PATH ("video_" ++ timestamp ++ ".mp4")
    else if List.isPrefixOf [82, 73, 70, 70] header && (header.drop 8).take 4 == [87, 65, 86, 69] then
      pathJoin AUDIO_RECORD_PATH ("audio_" ++ timestamp ++ ".wav")
    else filepath

/-! ## file_receiver (identical in pi.py and pi2.py) -/

/-- The name-decoding line of `file_receiver`:
`data[:100].split(b"\x00")[0].decode("utf-8", errors="ignore").strip()`. -/
def receiverName (data : List Nat) : String :=
  cpsToString (pystripCp (utf8DecodeIgnore ((data.take 100).takeWhile (fun b => b != 0))))

/-- `file_receiver` of pi.py / pi2.py on one datagram: the first 100
bytes up to the first NUL are leniently decoded and stripped as the file
name; an empty result raises `ValueError("无效文件名")`, caught into an
error reply with no write; otherwise the remaining bytes are written to
`os.path.join(FILE_SAVE_PATH, filename)` and `FILE_SAVED` is sent. -/
def file_receiver (data : List Nat) (fs : FS) : String × FS :=
  let filename := receiverName data
  if filename = "" then ("ERROR:无效文件名", fs)
  else
    let file_data := data.drop 100
    let save_path := pathJoin FILE_SAVE_PATH filename
    ("FILE_SAVED", fsWrite fs save_path file_data)

/-! ## Concrete fixtures -/

/-- pi_final.py environment with every capability available and working. -/
def pfEnvOk : PFEnv :=
  { gpioAvailable := true, cameraOk := true, cameraErr := "camera error",
    fileExists := fun _ => true, serialAvail := fun _ => true,
    audioOpenOk := true, audioErr := "audio error",
    timeSetOk := true, timeSetErr := "time error",
    oledOk := true, oledErr := "oled error",
    tcpOk := true, tcpErr := "tcp error", timestamp := "20250101_000000" }

/-- pi_final.py start-up state: no task running, nothing playing. -/
def pfIdle : PFState :=
  { continuousCapture := false, captureInterval := 1, captureWorkers := 0,
    isAudioRecording := false, audioWorkers := 0,
    hdmiHandle := false, hdmiProcs := 0, ledOn := false }

/-- pi.py environment with every capability available and working. -/
def piEnvOk : PiEnv :=
  { gpioAvailable := true, cameraOk := true, cameraErr := "camera error",
    fileExists := fun _ => true, serialAvail := fun _ => true,
    oledRet := 0, timestamp := "20250101_000000" }

/-- pi.py start-up state. -/
def piIdle : PiState :=
  { continuousCapture := false, captureInterval := 1, captureWorkers := 0, ledOn := false }

/-- pi.py state with continuous capture already running (one worker). -/
def piRunning : PiState :=
  { continuousCapture := true, captureInterval := 1, captureWorkers := 1, ledOn := false }

/-- pi2.py environment with every capability available and working. -/
def pi2EnvOk : Pi2Env :=
  { gpioAvailable := true, cameraOk := true, fileExists := fun _ => true,
    serialAvail := fun _ => true, timeSetRet := 0, exnText := "exn",
    timestamp := "20250101_000000" }

/-- pi2.py start-up state. -/
def pi2Idle : Pi2State :=
  { continuousCapture := false, captureInterval := 1, captureWorkers := 0,
    ledOn := false, files := [] }

/-- A TCP connection stream: opcode bytes `00 01`, declared size 3,
then exactly the three payload bytes `"abc"`. -/
def c3conn : List Nat := [0, 1, 0, 0, 0, 3, 97, 98, 99]

/-- A datagram: name field `"a.jpg"` NUL-padded to 100 bytes, then a
ten-byte payload. -/
def c6data : List Nat := strBytes "a.jpg" ++ List.replicate 95 0 ++ [1, 2, 3, 4, 5, 6, 7, 8, 9, 10]

/-- A datagram whose name field holds the traversal name `"../x"`. -/
def c10data : List Nat := strBytes "../x" ++ List.replicate 96 0 ++ [1, 2, 3]

/-- The leading bytes of a valid WAV file: `RIFF`, chunk size, `WAVE`,
`fmt `. -/
def wavFileBytes : List Nat :=
  [82, 73, 70, 70, 36, 8, 0, 0, 87, 65, 86, 69, 102, 109, 116, 32]

/-! ## Claim theorems -/

/-- Claim C1, counterexample: in pi.py's text handler, the single byte
0xFF is not valid UTF-8; `data.decode()` runs before the `try` block, so
the `UnicodeDecodeError` escapes the handler and terminates the command
loop, refuting "decoding a non-UTF-8 or otherwise malformed datagram does
not escape the handler" for every handler. -/
theorem C1_counterexample : handle_udp_command_pi [255] piEnvOk piIdle = none := rfl

/-- Claim C1, amended: in the binary variant (pi2.py) decoding is total —
the unregistered primary opcode 0xFFFF yields the unknown-command error,
a frame shorter than 4 bytes yields the length error, and every datagram
produces a structured response; in the text variant (pi.py) this holds
for every datagram that decodes as UTF-8. -/
theorem C1_amended_theorem :
    (∀ (rest : List Nat) (env : Pi2Env) (s : Pi2State), 2 ≤ rest.length →
       handle_udp_command_pi2 (255 :: 255 :: rest) env s =
         some ("ERROR:未知指令 0xFFFF", s)) ∧
    (∀ (data : List Nat) (env : Pi2Env) (s : Pi2State), data.length < 4 →
       handle_udp_command_pi2 data env s = some ("ERROR:指令长度不足", s)) ∧
    (∀ (data : List Nat) (env : Pi2Env) (s : Pi2State),
       (handle_udp_command_pi2 data env s).isSome) ∧
    (∀ (data : List Nat) (env : PiEnv) (s : PiState) (cps : List Nat),
       utf8Decode data = some cps → (handle_udp_command_pi data env s).isSome) := by
  refine ⟨?_, ?_, ?_, ?_⟩
  · intro rest env s h
    unfold handle_udp_command_pi2 pi2_udp_dispatch
    rw [if_pos (show (4:ℕ) ≤ (255 :: 255 :: rest).length from by
      simp only [List.length_cons]; omega)]
    simp only [List.getD_cons_zero, List.getD_cons_succ]
    norm_num [mapLookupNat, COMMANDS_MAIN]
    rfl
  · intro data env s h
    rcases data with _ | ⟨a, _ | ⟨b, _ | ⟨c, _ | ⟨d, t⟩⟩⟩⟩
    · rfl
    · rfl
    · rfl
    · rfl
    · simp at h; omega
  · intro data env s
    rfl
  · intro data env s cps h
    unfold handle_udp_command_pi
    rw [h]
    rfl

/-- Claim C1, witness for the amended theorem's hypotheses, at concrete
inputs. -/
theorem C1_witness :
    handle_udp_command_pi2 [255, 255, 7, 7] pi2EnvOk pi2Idle =
      some ("ERROR:未知指令 0xFFFF", pi2Idle) ∧
    handle_udp_command_pi2 [1, 2] pi2EnvOk pi2Idle = some ("ERROR:指令长度不足", pi2Idle) ∧
    (handle_udp_command_pi [99, 97, 112] piEnvOk piIdle).isSome :=
  ⟨C1_amended_theorem.1 [7, 7] pi2EnvOk pi2Idle (by decide),
   C1_amended_theorem.2.1 [1, 2] pi2EnvOk pi2Idle (by decide),
   C1_amended_theorem.2.2.2 [99, 97, 112] piEnvOk piIdle [99, 97, 112] rfl⟩

/-- Claim C2, counterexample: in pi.py, issuing `continuous_capture 2`
while the running flag is already true answers `"OK"` (not an
AlreadyRunning/ERROR result) and spawns a second capture worker against
the same camera (`captureWorkers` goes from 1 to 2). -/
theorem C2_counterexample :
    pi_udp_dispatch "continuous_capture 2" piEnvOk piRunning =
      ("OK", { continuousCapture := true, captureInterval := 2, captureWorkers := 2,
               ledOn := false }) ∧
    (pi_udp_dispatch "continuous_capture 2" piEnvOk piRunning).2.captureWorkers = 2 ∧
    strStarts (pi_udp_dispatch "continuous_capture 2" piEnvOk piRunning).1 "ERROR" = false :=
  ⟨rfl, rfl, rfl⟩

/-- Claim C2, amended: in pi_final.py, starting continuous capture or
audio recording while its flag is already true returns the
already-running error and spawns no new worker; HDMI play while a player
exists terminates the old player and starts a new one (success), keeping
at most one live player process; pi.py's continuous-capture start
performs no such check (see the counterexample). -/
theorem C2_amended_theorem :
    (∀ (interval ci : ℚ) (w : Nat) ar aw hh hp led,
       start_continuous_capture interval ⟨true, ci, w, ar, aw, hh, hp, led⟩ =
         ((false, "已经在连续拍摄模式"), ⟨true, ci, w, ar, aw, hh, hp, led⟩)) ∧
    (∀ (env : PFEnv) (ci : ℚ) cc w aw hh hp led,
       start_audio_recording env ⟨cc, ci, w, true, aw, hh, hp, led⟩ =
         ((false, "已经在录音中"), ⟨cc, ci, w, true, aw, hh, hp, led⟩)) ∧
    (∀ (p : String) (ci : ℚ) cc w ar aw led,
       hdmi_play_video p pfEnvOk ⟨cc, ci, w, ar, aw, true, 1, led⟩ =
         ((true, "正在HDMI播放: " ++ p), ⟨cc, ci, w, ar, aw, true, 1, led⟩)) := by
  refine ⟨?_, ?_, ?_⟩ <;> intros <;> rfl

/-- Claim C4, counterexample: `download` appears in `COMMAND_MAPPING`
(code 0x20010002) and `download f.bin` is well-formed, yet the dispatch
chain has no branch for it, so the response is the unknown-command ERROR,
refuting "every well-formed text command with a known opcode and valid
arguments returns SUCCESS". -/
theorem C4_counterexample :
    mapLookup COMMAND_MAPPING "download" = some "0x20010002" ∧
    udp_command_server_handle "download f.bin" pfEnvOk pfIdle =
      some ("0x20010002:ERROR:未知命令", pfIdle) :=
  ⟨rfl, rfl⟩

/-- Claim C4, amended: for commands the pi_final.py dispatch chain
handles, valid arguments and an available capability yield a SUCCESS
response with the corresponding state transition observable — in
particular `led_on` leaves the light state true — while mapping-known
commands without a dispatch branch (`download`, `file_transfer`) and
commands whose code resolution fails (`run_script oled`) are answered
with the unknown-command error. -/
theorem C4_amended_theorem :
    (∀ s : PFState, udp_command_server_handle "led_on" pfEnvOk s =
       some ("0x40010001:SUCCESS:LED已开启", { s with ledOn := true })) ∧
    (∀ s : PFState, udp_command_server_handle "led_off" pfEnvOk s =
       some ("0x40020001:SUCCESS:LED已关闭", { s with ledOn := false })) ∧
    (∀ (ci : ℚ) cc w ar aw hh hp led,
       udp_command_server_handle "continuous_capture stop" pfEnvOk
           ⟨cc, ci, w, ar, aw, hh, hp, led⟩ =
         some ("0x14BD0003:SUCCESS:已停止连续拍摄", ⟨false, ci, w, ar, aw, hh, hp, led⟩)) ∧
    (∀ s : PFState, udp_command_server_handle "file_transfer x" pfEnvOk s =
       some ("0x20010001:ERROR:未知命令", s)) := by
  refine ⟨?_, ?_, ?_, ?_⟩ <;> intros <;> rfl

/-- Claim C5, counterexample: in pi_final.py, `continuous_capture 0`
parses, is NOT rejected with the "must be > 0" error, and starts the
capture task (flag set, a worker spawned) with a SUCCESS response —
`start_continuous_capture` has no positivity check. -/
theorem C5_counterexample :
    udp_command_server_handle "continuous_capture 0" pfEnvOk pfIdle =
      some ("0x14BD0002:SUCCESS:开始连续拍摄，间隔 0.0 秒",
            { continuousCapture := true, captureInterval := 0, captureWorkers := 1,
              isAudioRecording := false, audioWorkers := 0,
              hdmiHandle := false, hdmiProcs := 0, ledOn := false }) := rfl

/-- Claim C5, amended: in pi.py, a zero-or-negative interval and a
non-numeric interval fail with the distinct stable messages
`ERROR:间隔时间必须大于0` and `ERROR:无效的间隔时间` and neither starts
the task; in pi_final.py only the non-numeric case is rejected
(`无效的间隔时间`), while a zero or negative interval is accepted and
starts the capture task. -/
theorem C5_amended_theorem :
    (∀ (env : PiEnv) (s : PiState),
       pi_udp_dispatch "continuous_capture 0" env s = ("ERROR:间隔时间必须大于0", s)) ∧
    (∀ (env : PiEnv) (s : PiState),
       pi_udp_dispatch "continuous_capture -1" env s = ("ERROR:间隔时间必须大于0", s)) ∧
    (∀ (env : PiEnv) (s : PiState),
       pi_udp_dispatch "continuous_capture abc" env s = ("ERROR:无效的间隔时间", s)) ∧
    ("ERROR:间隔时间必须大于0" ≠ ("ERROR:无效的间隔时间" : String)) ∧
    (∀ (env : PFEnv) (s : PFState),
       udp_command_server_handle "continuous_capture abc" env s =
         some ("0x14BD0002:ERROR:无效的间隔时间", s)) ∧
    (∀ (ci : ℚ) (w : Nat) ar aw hh hp led,
       udp_command_server_handle "continuous_capture 0" pfEnvOk
           ⟨false, ci, w, ar, aw, hh, hp, led⟩ =
         some ("0x14BD0002:SUCCESS:开始连续拍摄，间隔 0.0 秒",
               ⟨true, 0, w + 1, ar, aw, hh, hp, led⟩)) := by
  refine ⟨fun _ _ => rfl, fun _ _ => rfl, fun _ _ => rfl, by decide, fun _ _ => rfl, ?_⟩
  intros; rfl

/-- Claim C7, counterexample: `stop_continuous_capture` on a state where
continuous capture is NOT running still returns a success result
`(True, "已停止连续拍摄")` — not a NotRunning-style failure — refuting
the claim for the continuous-capture task. -/
theorem C7_counterexample :
    pfIdle.continuousCapture = false ∧
    stop_continuous_capture pfIdle = ((true, "已停止连续拍摄"), pfIdle) :=
  ⟨rfl, rfl⟩

/-- Claim C7, amended: stopping audio recording or HDMI playback while
not running returns a NotRunning-style failure and stopping them while
running flips the flag/handle with success; continuous-capture stop is
unconditional — it clears the flag and reports success whether or not the
task was running. -/
theorem C7_amended_theorem :
    (∀ (ci : ℚ) cc w ar aw hh hp led,
       stop_continuous_capture ⟨cc, ci, w, ar, aw, hh, hp, led⟩ =
         ((true, "已停止连续拍摄"), ⟨false, ci, w, ar, aw, hh, hp, led⟩)) ∧
    (∀ (env : PFEnv) (ci : ℚ) cc w aw hh hp led,
       stop_audio_recording env ⟨cc, ci, w, false, aw, hh, hp, led⟩ =
         ((false, "没有正在进行的录音"), ⟨cc, ci, w, false, aw, hh, hp, led⟩)) ∧
    (∀ (env : PFEnv) (ci : ℚ) cc w aw hh hp led,
       stop_audio_recording env ⟨cc, ci, w, true, aw, hh, hp, led⟩ =
         ((true, "录音已保存: " ++
             pathJoin AUDIO_RECORD_PATH ("recording_" ++ env.timestamp ++ ".wav")),
          ⟨cc, ci, w, false, aw, hh, hp, led⟩)) ∧
    (∀ (ci : ℚ) cc w ar aw hp led,
       hdmi_stop_video ⟨cc, ci, w, ar, aw, false, hp, led⟩ =
         ((false, "没有正在播放的视频"), ⟨cc, ci, w, ar, aw, false, hp, led⟩)) ∧
    (∀ (ci : ℚ) cc w ar aw hp led,
       hdmi_stop_video ⟨cc, ci, w, ar, aw, true, hp, led⟩ =
         ((true, "HDMI播放已停止"), ⟨cc, ci, w, ar, aw, false, hp - 1, led⟩)) := by
  refine ⟨?_, ?_, ?_, ?_, ?_⟩ <;> intros <;> rfl

/-- Claim C8: `guess_file_type` reads only FOUR bytes into `header`, so
the WAV test `header[8:12] == b"WAVE"` compares an empty slice and can
never succeed: a file that begins with a valid WAV header (`RIFF` at 0,
`WAVE` at bytes 8-11) is left under its generic name, contradicting the
claimed reclassification to a `.wav` name; the four-byte JPEG signature
branch does work, confirming the slip is the short read. -/
theorem C8_theorem :
    List.isPrefixOf [82, 73, 70, 70] wavFileBytes = true ∧
    (wavFileBytes.drop 8).take 4 = [87, 65, 86, 69] ∧
    guess_file_type (some wavFileBytes)
        "/home/ppt5517/received_files/upload_20250101_000000.bin" "20250101_000000" =
      "/home/ppt5517/received_files/upload_20250101_000000.bin" ∧
    guess_file_type (some [255, 216, 255, 224])
        "/home/ppt5517/received_files/upload_20250101_000000.bin" "20250101_000000" =
      "/home/ppt5517/received_files/image_20250101_000000.jpg" :=
  ⟨rfl, rfl, rfl, rfl⟩

/-- Claim C10: the datagram file receiver joins the client-supplied name
onto `FILE_SAVE_PATH` with no sanitisation: for the non-empty name
`"../x"` the reply is `FILE_SAVED`, the write path is
`/home/ppt5517/received_files/../x`, which resolves to
`/home/ppt5517/x` — outside the save directory. -/
theorem C10_theorem :
    receiverName c10data = "../x" ∧
    (file_receiver c10data []).1 = "FILE_SAVED" ∧
    fsRead (file_receiver c10data []).2 (pathJoin FILE_SAVE_PATH "../x") = some [1, 2, 3] ∧
    pathJoin FILE_SAVE_PATH "../x" = "/home/ppt5517/received_files/../x" ∧
    normComponents (pathJoin FILE_SAVE_PATH "../x") = ["home", "ppt5517", "x"] ∧
    isUnder FILE_SAVE_PATH (pathJoin FILE_SAVE_PATH "../x") = false := by
  refine ⟨by decide, by decide, by decide, rfl, rfl, by decide⟩

lemma strData_append (a b : String) : (a ++ b).data = a.data ++ b.data := rfl

lemma incompleteMsg_ne (r n : Nat) : incompleteMsg r n ≠ "FILE_TRANSFER_SUCCESS" := by
  unfold incompleteMsg
  intro h
  have hd := congrArg String.data h
  simp only [strData_append, List.cons_append] at hd
  injection hd with h1 _
  exact absurd h1 (by decide)

/-- The receive loop is a greedy chunked read: starting below the target
with `received ≤ fileSize`, it consumes `min fileSize (received +
conn.length) - received` further bytes, appending exactly those bytes to
the file data. -/
lemma recvLoop_spec (fileSize : Nat) :
    ∀ (conn : List Nat) (received : Nat) (fdata : List Nat), received ≤ fileSize →
      recvLoop fileSize conn received fdata =
        (min fileSize (received + conn.length),
         fdata ++ conn.take (min fileSize (received + conn.length) - received)) := by
  have main : ∀ (n : Nat) (conn : List Nat) (received : Nat) (fdata : List Nat),
      fileSize - received ≤ n → received ≤ fileSize →
      recvLoop fileSize conn received fdata =
        (min fileSize (received + conn.length),
         fdata ++ conn.take (min fileSize (received + conn.length) - received)) := by
    intro n
    induction n with
    | zero =>
      intro conn received fdata hn hr
      have hEq : received = fileSize := by omega
      subst hEq
      unfold recvLoop
      rw [dif_neg (by omega)]
      rw [Nat.min_eq_left (Nat.le_add_right _ _)]
      simp
    | succ n ih =>
      intro conn received fdata hn hr
      by_cases h : received < fileSize
      · cases hc : conn.take (min 4096 (fileSize - received)) with
        | nil =>
          unfold recvLoop
          rw [dif_pos h]
          simp only [hc]
          have hconn : conn = [] := by
            rcases List.take_eq_nil_iff.mp hc with h0 | h0
            · exact absurd h0 (by omega)
            · exact h0
          subst hconn
          simp only [List.length_nil, Nat.add_zero, Nat.min_eq_right hr]
          simp
        | cons c cs =>
          have hlen1 : (c :: cs).length ≤ min 4096 (fileSize - received) := by
            rw [← hc]
            exact List.length_take_le _ _
          have hlen2 : (c :: cs).length ≤ conn.length := by
            have h2 := congrArg List.length hc
            rw [List.length_take] at h2
            omega
          have hstep : received + (c :: cs).length ≤ fileSize := by
            have := Nat.min_le_right 4096 (fileSize - received)
            omega
          unfold recvLoop
          rw [dif_pos h]
          simp only [hc]
          rw [ih _ _ _ (by simp only [List.length_cons]; omega) hstep]
          have hchunk : conn.take (c :: cs).length = c :: cs := by
            have h1 : conn.take (min (c :: cs).length (min 4096 (fileSize - received))) =
                (conn.take (min 4096 (fileSize - received))).take (c :: cs).length := by
              rw [List.take_take]
            rw [Nat.min_eq_left hlen1] at h1
            rw [h1, hc, List.take_length]
          have hXeq : received + (c :: cs).length + (conn.drop (c :: cs).length).length =
              received + conn.length := by
            rw [List.length_drop]
            omega
          rw [hXeq]
          have hLle : received + (c :: cs).length ≤ min fileSize (received + conn.length) :=
            Nat.le_min.mpr ⟨hstep, by omega⟩
          have hXr : min fileSize (received + conn.length) - (received + (c :: cs).length) =
              min fileSize (received + conn.length) - received - (c :: cs).length := by
            omega
          rw [hXr]
          simp only [Prod.mk.injEq, true_and]
          rw [List.append_assoc]
          congr 1
          conv_rhs => rw [show min fileSize (received + conn.length) - received =
            (c :: cs).length +
              (min fileSize (received + conn.length) - received - (c :: cs).length) from by
            omega]
          rw [List.take_add, hchunk]
      · unfold recvLoop
        rw [dif_neg h]
        have hEq : received = fileSize := by omega
        subst hEq
        rw [Nat.min_eq_left (Nat.le_add_right _ _)]
        simp
  intro conn received fdata hr
  exact main (fileSize - received) conn received fdata le_rfl hr

/-- Claim C3: for a session whose connection stream carries the full
six-byte header, the byte counter never exceeds the declared size; the
bytes written are exactly the received prefix of the stream body; the
success acknowledgement is sent if and only if exactly the declared
number of bytes was received (and the file is kept exactly then); and a
stream exhausted before the declared size (the zero-byte chunk read)
yields the incomplete-transfer error with the partial file removed. -/
theorem C3_theorem : ∀ (conn : List Nat), 6 ≤ conn.length →
    (handle_tcp_file_transfer conn).received ≤ be32 ((conn.take 6).drop 2) ∧
    (handle_tcp_file_transfer conn).contents =
      (conn.drop 6).take (handle_tcp_file_transfer conn).received ∧
    (handle_tcp_file_transfer conn).contents.length = (handle_tcp_file_transfer conn).received ∧
    ((handle_tcp_file_transfer conn).response = "FILE_TRANSFER_SUCCESS" ↔
       (handle_tcp_file_transfer conn).received = be32 ((conn.take 6).drop 2)) ∧
    ((handle_tcp_file_transfer conn).kept = true ↔
       (handle_tcp_file_transfer conn).received = be32 ((conn.take 6).drop 2)) ∧
    (conn.length - 6 < be32 ((conn.take 6).drop 2) →
       (handle_tcp_file_transfer conn).received = conn.length - 6 ∧
       (handle_tcp_file_transfer conn).kept = false ∧
       (handle_tcp_file_transfer conn).response =
         incompleteMsg (conn.length - 6) (be32 ((conn.take 6).drop 2))) := by
  intro conn h6
  have hh : (conn.take 6).length = 6 := by rw [List.length_take]; omega
  have hr := recvLoop_spec (be32 ((conn.take 6).drop 2)) (conn.drop 6) 0 []
    (Nat.zero_le _)
  have hrec : handle_tcp_file_transfer conn =
      (if min (be32 ((conn.take 6).drop 2)) (conn.length - 6) = be32 ((conn.take 6).drop 2) then
        { response := "FILE_TRANSFER_SUCCESS",
          received := min (be32 ((conn.take 6).drop 2)) (conn.length - 6), kept := true,
          contents := (conn.drop 6).take (min (be32 ((conn.take 6).drop 2)) (conn.length - 6)) }
       else
        { response := incompleteMsg (min (be32 ((conn.take 6).drop 2)) (conn.length - 6))
            (be32 ((conn.take 6).drop 2)),
          received := min (be32 ((conn.take 6).drop 2)) (conn.length - 6), kept := false,
          contents :=
            (conn.drop 6).take (min (be32 ((conn.take 6).drop 2)) (conn.length - 6)) }) := by
    unfold handle_tcp_file_transfer
    rw [if_pos hh]
    simp only [hr, List.nil_append, List.length_drop, Nat.zero_add, Nat.sub_zero]
  set N := be32 ((conn.take 6).drop 2) with hN
  set m := min N (conn.length - 6) with hm
  have hmN : m ≤ N := Nat.min_le_left _ _
  have hmL : m ≤ conn.length - 6 := Nat.min_le_right _ _
  by_cases hfull : m = N
  · rw [if_pos hfull] at hrec
    rw [hrec]
    refine ⟨hmN, rfl, ?_, ?_, ?_, ?_⟩
    · show (List.take m (conn.drop 6)).length = m
      rw [List.length_take, List.length_drop]
      omega
    · exact ⟨fun _ => hfull, fun _ => rfl⟩
    · exact ⟨fun _ => hfull, fun _ => rfl⟩
    · intro hshort
      exfalso
      omega
  · rw [if_neg hfull] at hrec
    rw [hrec]
    have hchoice : m = N ∨ m = conn.length - 6 := by
      rw [hm]
      exact min_choice _ _
    refine ⟨hmN, rfl, ?_, ?_, ?_, ?_⟩
    · show (List.take m (conn.drop 6)).length = m
      rw [List.length_take, List.length_drop]
      omega
    · exact ⟨fun habs => absurd habs (incompleteMsg_ne m N), fun habs => absurd habs hfull⟩
    · exact ⟨fun habs => Bool.noConfusion habs, fun habs => absurd habs hfull⟩
    · intro hshort
      have hms : m = conn.length - 6 := by
        rcases hchoice with hcl | hcl
        · exact absurd hcl hfull
        · exact hcl
      exact ⟨hms, rfl, by rw [hms]⟩

/-- Claim C3, witness: the theorem instantiated on a nine-byte stream —
header `00 01 / 00 00 00 03` then exactly the three payload bytes. -/
theorem C3_witness :
    (handle_tcp_file_transfer c3conn).received ≤ be32 ((c3conn.take 6).drop 2) ∧
    (handle_tcp_file_transfer c3conn).contents =
      (c3conn.drop 6).take (handle_tcp_file_transfer c3conn).received ∧
    (handle_tcp_file_transfer c3conn).contents.length =
      (handle_tcp_file_transfer c3conn).received ∧
    ((handle_tcp_file_transfer c3conn).response = "FILE_TRANSFER_SUCCESS" ↔
       (handle_tcp_file_transfer c3conn).received = be32 ((c3conn.take 6).drop 2)) ∧
    ((handle_tcp_file_transfer c3conn).kept = true ↔
       (handle_tcp_file_transfer c3conn).received = be32 ((c3conn.take 6).drop 2)) ∧
    (c3conn.length - 6 < be32 ((c3conn.take 6).drop 2) →
       (handle_tcp_file_transfer c3conn).received = c3conn.length - 6 ∧
       (handle_tcp_file_transfer c3conn).kept = false ∧
       (handle_tcp_file_transfer c3conn).response =
         incompleteMsg (c3conn.length - 6) (be32 ((c3conn.take 6).drop 2))) :=
  C3_theorem c3conn (by decide)

lemma fsRead_fsWrite_self (fs : FS) (p : String) (c : List Nat) :
    fsRead (fsWrite fs p c) p = some c := by
  show (if (p, c).1 = p then some (p, c).2 else fsRead (fsRemove fs p) p) = some c
  rw [if_pos rfl]

lemma fsRead_fsRemove_ne (fs : FS) (q p : String) (h : p ≠ q) :
    fsRead (fsRemove fs q) p = fsRead fs p := by
  induction fs with
  | nil => rfl
  | cons e rest ih =>
    show fsRead (if e.1 = q then fsRemove rest q else e :: fsRemove rest q) p = _
    by_cases he : e.1 = q
    · rw [if_pos he, ih]
      show fsRead rest p = if e.1 = p then some e.2 else fsRead rest p
      rw [if_neg (fun hc : e.1 = p => h ((hc ▸ he : p = q)))]
    · rw [if_neg he]
      show (if e.1 = p then some e.2 else fsRead (fsRemove rest q) p) =
        (if e.1 = p then some e.2 else fsRead rest p)
      by_cases hp : e.1 = p
      · rw [if_pos hp, if_pos hp]
      · rw [if_neg hp, if_neg hp, ih]

lemma fsRead_fsWrite_other (fs : FS) (q p : String) (c : List Nat) (h : p ≠ q) :
    fsRead (fsWrite fs q c) p = fsRead fs p := by
  show (if (q, c).1 = p then some (q, c).2 else fsRead (fsRemove fs q) p) = fsRead fs p
  rw [if_neg (Ne.symm h)]
  exact fsRead_fsRemove_ne fs q p h

/-- Claim C6: the datagram file receiver decodes the first 100 bytes as a
NUL-padded name — if the stripped name is empty, the reply is the error
message and the filesystem is unchanged; otherwise the reply is
`FILE_SAVED`, the file at the joined path holds exactly the bytes after
byte 100, and no other path is touched. -/
theorem C6_theorem : ∀ (data : List Nat) (fs : FS),
    (receiverName data = "" → file_receiver data fs = ("ERROR:无效文件名", fs)) ∧
    (receiverName data ≠ "" →
       (file_receiver data fs).1 = "FILE_SAVED" ∧
       fsRead (file_receiver data fs).2 (pathJoin FILE_SAVE_PATH (receiverName data)) =
         some (data.drop 100) ∧
       (∀ p, p ≠ pathJoin FILE_SAVE_PATH (receiverName data) →
          fsRead (file_receiver data fs).2 p = fsRead fs p)) := by
  intro data fs
  constructor
  · intro h
    unfold file_receiver
    rw [if_pos h]
  · intro h
    unfold file_receiver
    rw [if_neg h]
    exact ⟨rfl, fsRead_fsWrite_self _ _ _, fun p hp => fsRead_fsWrite_other _ _ _ _ hp⟩

/-- Claim C6, witness: name `"a.jpg"` plus a ten-byte payload yields
`FILE_SAVED` and a stored ten-byte file at the joined path. -/
theorem C6_witness :
    (file_receiver c6data []).1 = "FILE_SAVED" ∧
    fsRead (file_receiver c6data []).2 (pathJoin FILE_SAVE_PATH (receiverName c6data)) =
      some (c6data.drop 100) ∧
    (∀ p, p ≠ pathJoin FILE_SAVE_PATH (receiverName c6data) →
       fsRead (file_receiver c6data []).2 p = fsRead [] p) :=
  (C6_theorem c6data []).2 (by decide)

lemma mapLookup_mem : ∀ (l : List (String × String)) (k v : String),
    mapLookup l k = some v → (k, v) ∈ l := by
  intro l
  induction l with
  | nil => intro k v h; exact Option.noConfusion h
  | cons p rest ih =>
    intro k v h
    unfold mapLookup at h
    split_ifs at h with hk
    · injection h with hv
      subst hk
      subst hv
      simp
    · exact List.mem_cons_of_mem _ (ih k v h)

/-- Every key of `COMMAND_MAPPING` either contains a space or splits to
the single token equal to itself. -/
lemma keys_space_or_single : ∀ p ∈ COMMAND_MAPPING,
    strHasChar p.1 ' ' = true ∨ pysplit p.1 = [p.1] := by decide

/-- Claim C9: `get_command_code` resolves a command containing whitespace
by its first token alone, special-casing only `continuous_capture stop`.
`run_script oled` is a mapping key, yet its code resolves to
`0x00000000` and the dispatcher answers the unknown-command error; and
for every command whose first token is not a mapping key (other than the
special case), the code is `0x00000000` and the dispatcher answers the
unknown-command error. -/
theorem C9_theorem :
    mapLookup COMMAND_MAPPING "run_script oled" = some "0x30020001" ∧
    get_command_code "run_script oled" = some "0x00000000" ∧
    (∀ s : PFState, udp_command_server_handle "run_script oled" pfEnvOk s =
       some ("0x00000000:ERROR:未知命令", s)) ∧
    (∀ (cmd t : String) (ts : List String), pysplit cmd = t :: ts →
       mapLookup COMMAND_MAPPING t = none → cmd ≠ "continuous_capture stop" →
       get_command_code cmd = some "0x00000000") ∧
    (∀ (cmd : String) (env : PFEnv) (s : PFState), get_command_code cmd = some "0x00000000" →
       udp_command_server_handle cmd env s = some ("0x00000000:ERROR:未知命令", s)) := by
  refine ⟨rfl, rfl, fun _ => rfl, ?_, ?_⟩
  · intro cmd t ts hsplit hlook hne
    unfold get_command_code
    by_cases hsp : strHasChar cmd ' '
    · simp only [hsp, if_true, hsplit, List.head?]
      simp [hne, hlook]
    · have hsp' : strHasChar cmd ' ' = false := by simpa using hsp
      have hcmd : mapLookup COMMAND_MAPPING cmd = none := by
        cases hl : mapLookup COMMAND_MAPPING cmd with
        | none => rfl
        | some v =>
          exfalso
          have hmem := mapLookup_mem COMMAND_MAPPING cmd v hl
          rcases keys_space_or_single (cmd, v) hmem with hh | hh
          · rw [hsp'] at hh
            exact Bool.noConfusion hh
          · rw [hh] at hsplit
            injection hsplit with h1 _
            subst h1
            rw [hl] at hlook
            exact Option.noConfusion hlook
      simp [hsp', hne, hcmd]
  · intro cmd env s h
    unfold udp_command_server_handle
    rw [h]
    rfl

/-- Claim C9, witness: the command `foo bar`, whose first token is not a
mapping key, resolves to `0x00000000` and is answered with the
unknown-command error. -/
theorem C9_witness :
    get_command_code "foo bar" = some "0x00000000" ∧
    udp_command_server_handle "foo bar" pfEnvOk pfIdle =
      some ("0x00000000:ERROR:未知命令", pfIdle) :=
  ⟨C9_theorem.2.2.2.1 "foo bar" "foo" ["bar"] rfl rfl (by decide),
   C9_theorem.2.2.2.2 "foo bar" pfEnvOk pfIdle
     (C9_theorem.2.2.2.1 "foo bar" "foo" ["bar"] rfl rfl (by decide))⟩
